import Mathlib

/-!
Verification of the IGenBench resumable state-tracking core: the item data
model (`igenbench/vis_item.py`), the state store and completion oracle
(`igenbench/utils/state_manager.py`), filename/path resolution
(`igenbench/utils/model_resolver.py`, `igenbench/utils/path_resolver.py`),
and the two pipeline drivers (`igenbench/workflow/gen_workflow.py`,
`igenbench/workflow/eval_workflow.py`).

JSON values are modelled by the inductive type `Json`; the filesystem is
modelled by `FS`, a pair of a presence predicate and a content map (a file
that is present but whose content is `none` stands for an unreadable or
malformed JSON file).  Python code paths that raise an exception are
modelled with `Option`/`Except`: `none`/`.error` marks the raising branch.
-/

/-- A JSON value, as produced by Python json.load.  Objects are association
lists; parsed Python dicts carry no duplicate keys and preserve insertion
order. -/
inductive Json where
  | null : Json
  | bool (b : Bool) : Json
  | num (n : Int) : Json
  | str (s : String) : Json
  | arr (xs : List Json) : Json
  | obj (fields : List (String × Json)) : Json

/-- A filesystem snapshot: which paths are present, and the parsed JSON
content of each path (`none` = file unreadable or not valid JSON). -/
structure FS where
  present : String → Bool
  content : String → Option Json

/-- Python truthiness of a JSON value (bool(v)). -/
def pyTruthy : Json → Bool
  | .null => false
  | .bool b => b
  | .num n => n != 0
  | .str s => s != ""
  | .arr xs => !xs.isEmpty
  | .obj fs => !fs.isEmpty

/-- Python dict.get(k, d) on a parsed JSON object's field list. -/
def dictGet (fields : List (String × Json)) (k : String) (d : Json) : Json :=
  (List.lookup k fields).getD d

/-- Python equality test `v == s` between an arbitrary value v and a string
s: true exactly when v is the same string. -/
def jsonEqStr (j : Json) (s : String) : Bool :=
  match j with
  | .str t => t == s
  | _ => false

/-- pathlib.Path(p).exists(): Path("") normalizes to ".", every other path
is looked up as written. -/
def pathlibExists (fs : FS) (p : String) : Bool :=
  fs.present (if p == "" then "." else p)

/-- The per-item record path `{output_dir}/{item_id}/{item_id}.json`, as
assembled by state_manager.py and vis_item.py. -/
def itemJsonPath (output_dir item_id : String) : String :=
  output_dir ++ "/" ++ item_id ++ "/" ++ item_id ++ ".json"

/-- Judgment dataclass (vis_item.py).  The four fields are str-typed in the
dataclass but Python never validates them, so they hold arbitrary JSON
values here. -/
structure Judgment where
  eval_model : Json := .str ""
  gen_model : Json := .str ""
  analysis : Json := .str ""
  answer : Json := .str ""

/-- EvalEntry dataclass (vis_item.py): one evaluation question and its
judgment history. -/
structure EvalEntry where
  source : Json := .str ""
  ground : Json := .str ""
  question : Json := .str ""
  question_type : Json := .str ""
  judgments : List Judgment := []

/-- VISItem dataclass (vis_item.py).  Optional descriptive fields default
to None (modelled as `Json.null`, which is also what a JSON null loads to);
`generation` is the model-name to image-path mapping. -/
structure VISItem where
  id : Json := .null
  reference_image_url : Json := .null
  t2i_prompt : Json := .null
  chart_type : Json := .null
  generation : List (String × Json) := []
  evaluation : List EvalEntry := []

/-- EvalEntry.has_judgment: some judgment matches both model names by exact
(string) equality. -/
def EvalEntry.has_judgment (e : EvalEntry) (gen_model eval_model : String) : Bool :=
  e.judgments.any fun j => jsonEqStr j.gen_model gen_model && jsonEqStr j.eval_model eval_model

/-- EvalEntry.add_judgment: append a new Judgment built from the four
string arguments (no dedup check). -/
def EvalEntry.add_judgment (e : EvalEntry) (gen_model eval_model analysis answer : String) : EvalEntry :=
  { e with judgments := e.judgments ++
      [{ eval_model := .str eval_model, gen_model := .str gen_model,
         analysis := .str analysis, answer := .str answer }] }

/-- Python dict assignment d[k] = v on an association list: overwrite in
place if the key is present (keeping its position), else append. -/
def dictUpdate (g : List (String × Json)) (k : String) (v : Json) : List (String × Json) :=
  match g with
  | [] => [(k, v)]
  | (k', v') :: rest => if k' == k then (k', v) :: rest else (k', v') :: dictUpdate rest k v

/-- VISItem.update_generation: self.generation[model] = image_path. -/
def VISItem.update_generation (item : VISItem) (model image_path : String) : VISItem :=
  { item with generation := dictUpdate item.generation model (.str image_path) }

/-- VISItem.check_generation_exists: `model in self.generation and
self.generation[model] is not None`. -/
def VISItem.check_generation_exists (item : VISItem) (model : String) : Bool :=
  match List.lookup model item.generation with
  | some .null => false
  | some _ => true
  | none => false

/-- VISItem.check_evaluation_complete: False on an empty evaluation list,
else every entry must have a matching judgment. -/
def VISItem.check_evaluation_complete (item : VISItem) (gen_model eval_model : String) : Bool :=
  if item.evaluation.isEmpty then false
  else item.evaluation.all fun e => e.has_judgment gen_model eval_model

/-- One judgment element inside EvalEntry.from_dict: dict-shaped judgments
are decoded with j.get(field, "") defaults; any other shape is skipped
(the isinstance(j, Judgment) arm is unreachable for parsed JSON). -/
def judgmentFromJson : Json → Option Judgment
  | .obj jf => some
      { eval_model := dictGet jf "eval_model" (.str ""),
        gen_model := dictGet jf "gen_model" (.str ""),
        analysis := dictGet jf "analysis" (.str ""),
        answer := dictGet jf "answer" (.str "") }
  | _ => none

/-- EvalEntry.from_dict on a parsed JSON object's fields: every scalar
sub-field defaults to "" via data.get, and judgments are decoded
defensively.  A judgments value that is not a JSON array yields [] here
(Python also yields [] for the iterable junk shapes it tolerates). -/
def EvalEntry.fromDict (ef : List (String × Json)) : EvalEntry :=
  { source := dictGet ef "source" (.str ""),
    question := dictGet ef "question" (.str ""),
    ground := dictGet ef "ground" (.str ""),
    question_type := dictGet ef "question_type" (.str ""),
    judgments :=
      match List.lookup "judgments" ef with
      | some (.arr js) => js.filterMap judgmentFromJson
      | _ => [] }

/-- List traversal building up an Except, mirroring the Python loop that
appends parsed entries one by one and propagates the first failure. -/
def exceptMapM (f : α → Except String β) : List α → Except String (List β)
  | [] => .ok []
  | a :: as =>
    match f a with
    | .error e => .error e
    | .ok b =>
      match exceptMapM f as with
      | .error e => .error e
      | .ok bs => .ok (b :: bs)

/-- The "generation" field of VISItem.from_dict.  The typed model requires
a JSON object here (Python would store any other present value untyped,
which no downstream operation of this core can consume). -/
def parseGeneration : Option Json → Except String (List (String × Json))
  | none => .ok []
  | some (.obj g) => .ok g
  | some _ => .error "TypeError: generation is not an object"

/-- One element of the "evaluation" array in VISItem.from_dict: dict-shaped
entries go through EvalEntry.from_dict.  The typed model requires objects
(Python passes other shapes through untyped). -/
def parseEvalElement : Json → Except String EvalEntry
  | .obj ef => .ok (EvalEntry.fromDict ef)
  | _ => .error "TypeError: evaluation entry is not an object"

/-- The "evaluation" field of VISItem.from_dict. -/
def parseEvaluation : Option Json → Except String (List EvalEntry)
  | none => .ok []
  | some (.arr es) => exceptMapM parseEvalElement es
  | some _ => .error "TypeError: evaluation is not a list"

/-- VISItem.from_dict on a parsed JSON value: the id field is required
(KeyError when absent), all other top-level fields are optional; an absent
optional scalar stays None (= null), absent containers stay empty. -/
def VISItem.fromDict (data : Json) : Except String VISItem :=
  match data with
  | .obj fields =>
    match List.lookup "id" fields with
    | none => .error "ParseError: missing required field id"
    | some idv =>
      match parseGeneration (List.lookup "generation" fields),
            parseEvaluation (List.lookup "evaluation" fields) with
      | .ok gen, .ok ev =>
        .ok { id := idv,
              reference_image_url := (List.lookup "reference_image_url" fields).getD .null,
              t2i_prompt := (List.lookup "t2i_prompt" fields).getD .null,
              chart_type := (List.lookup "chart_type" fields).getD .null,
              generation := gen,
              evaluation := ev }
      | .error e, _ => .error e
      | _, .error e => .error e
  | _ => .error "TypeError: item record is not an object"

/-- Judgment serialization (dataclasses.asdict): keys in dataclass field
order. -/
def Judgment.toJson (j : Judgment) : Json :=
  .obj [("eval_model", j.eval_model), ("gen_model", j.gen_model),
        ("analysis", j.analysis), ("answer", j.answer)]

/-- The field list VISItem.save_item writes for one EvalEntry (asdict on
the entry, keys in dataclass field order). -/
def EvalEntry.toSaveFields (e : EvalEntry) : List (String × Json) :=
  [("source", e.source), ("ground", e.ground), ("question", e.question),
   ("question_type", e.question_type),
   ("judgments", .arr (e.judgments.map Judgment.toJson))]

/-- One serialized EvalEntry as written by VISItem.save_item. -/
def EvalEntry.toSaveJson (e : EvalEntry) : Json :=
  .obj e.toSaveFields

/-- The JSON object VISItem.save_item writes: asdict(self) with the
evaluation entries serialized entry by entry, keys in dataclass field
order.  (The physical file write and parent-directory creation are
filesystem effects outside the value-level model.) -/
def VISItem.toSaveJson (item : VISItem) : Json :=
  .obj [("id", item.id),
        ("reference_image_url", item.reference_image_url),
        ("t2i_prompt", item.t2i_prompt),
        ("chart_type", item.chart_type),
        ("generation", .obj item.generation),
        ("evaluation", .arr (item.evaluation.map EvalEntry.toSaveJson))]

/-- open(path) followed by json.load: FileNotFoundError when the path is
absent, JSONDecodeError when the content is not valid JSON. -/
def readJsonFile (fs : FS) (path : String) : Except String Json :=
  if fs.present path then
    match fs.content path with
    | some j => .ok j
    | none => .error "JSONDecodeError"
  else .error "FileNotFoundError"

/-- VISItem.from_dict taking a file path (as the Python classmethod does):
read, parse, decode. -/
def VISItem.from_dict_file (fs : FS) (info_path : String) : Except String VISItem :=
  match readJsonFile fs info_path with
  | .ok j => VISItem.fromDict j
  | .error e => .error e

/-- ItemStateManager.load_item: parse the seed record; without resume
return it; under resume prefer `{output_dir}/{id}/{id}.json` wholesale when
that file is present.  A non-string id makes the Path join raise. -/
def ItemStateManager.load_item (fs : FS) (output_dir source_path : String) (resume : Bool) :
    Except String VISItem :=
  if !resume then VISItem.from_dict_file fs source_path
  else
    match VISItem.from_dict_file fs source_path with
    | .error e => .error e
    | .ok item_temp =>
      match item_temp.id with
      | .str idStr =>
        if fs.present (itemJsonPath output_dir idStr) then
          VISItem.from_dict_file fs (itemJsonPath output_dir idStr)
        else .ok item_temp
      | _ => .error "TypeError: unsupported operand type for path join"

/-- str.replace("-", "_").replace(".", "_"): both patterns are single
characters, so the replacement is the char-wise map. -/
def replaceDashDot (s : String) : String :=
  ⟨s.data.map fun c => if c = '-' then '_' else if c = '.' then '_' else c⟩

/-- str.split on a single separator character (no maxsplit), char-wise:
"a/b/c" gives ["a","b","c"], separators at the ends give empty pieces. -/
def splitChar (c : Char) : List Char → List (List Char)
  | [] => [[]]
  | ch :: rest =>
    match splitChar c rest with
    | [] => [[]]
    | g :: gs => if ch = c then [] :: g :: gs else (ch :: g) :: gs

/-- ModelNameResolver.normalize_for_filename: replace '-' and '.' with '_',
then for names containing '/', keep split("/")[1] (the segment right after
the first '/'). -/
def ModelNameResolver.normalize_for_filename (model_name : String) : String :=
  let normalized := replaceDashDot model_name
  if normalized.data.contains '/' then
    ⟨((splitChar '/' normalized.data).drop 1).headD []⟩
  else normalized

/-- ModelNameResolver.build_image_filename with the default ".png"
extension. -/
def ModelNameResolver.build_image_filename (item_id model_name extension : String) : String :=
  item_id ++ "_" ++ ModelNameResolver.normalize_for_filename model_name ++ extension

/-- PathResolver.resolve_image_path: Path(output_dir) / item_id /
build_image_filename(item_id, model_name), with pathlib joins modelled as
"/"-separated concatenation. -/
def PathResolver.resolve_image_path (item_id model_name output_dir : String) : String :=
  output_dir ++ "/" ++ item_id ++ "/" ++
    ModelNameResolver.build_image_filename item_id model_name ".png"

/-- Python dict.get on an arbitrary value: a non-dict receiver raises
AttributeError (modelled as none). -/
def pyGet (data : Json) (k : String) (d : Json) : Option Json :=
  match data with
  | .obj f => some (dictGet f k d)
  | _ => none

/-- The "draft" branch of ItemStateManager.is_stage_completed:
bool(t2i_prompt and t2i_prompt.strip()), where .strip() on a truthy
non-string raises. -/
def draftBody (data : Json) : Option Bool :=
  match pyGet data "design_space" (.obj []) with
  | none => none
  | some design_space =>
    match pyGet design_space "t2i_prompt" (.str "") with
    | none => none
    | some t2i =>
      if !pyTruthy t2i then some false
      else
        match t2i with
        | .str s => some (s.trim != "")
        | _ => none

/-- The "generate" branch of ItemStateManager.is_stage_completed: empty or
missing method short-circuits to False; `method in generation` on non-dict
junk follows Python semantics (list membership, substring test, TypeError);
a present truthy value must be a string to survive Path(), and its
existence is then checked. -/
def generateBody (fs : FS) (method : Option String) (data : Json) : Option Bool :=
  match method with
  | none => some false
  | some m =>
    if m == "" then some false
    else
      match pyGet data "generation" (.obj []) with
      | none => none
      | some gen =>
        match gen with
        | .obj g =>
          match List.lookup m g with
          | none => some false
          | some v =>
            if !pyTruthy v then some false
            else
              match v with
              | .str p => some (pathlibExists fs p)
              | _ => none
        | .arr xs => if xs.any (fun j => jsonEqStr j m) then none else some false
        | .str s => if (s.splitOn m).length > 1 then none else some false
        | _ => none

/-- The judgment scan inside _validate_evaluation_completion:
any(j.get("eval_model") == eval_model and j.get("gen_model") == gen_model
for j in judgments), with .get defaulting to None and non-dict elements
raising when reached. -/
def pyAnyJudgmentList (em gm : String) : List Json → Option Bool
  | [] => some false
  | j :: rest =>
    match j with
    | .obj jf =>
      if jsonEqStr (dictGet jf "eval_model" .null) em
          && jsonEqStr (dictGet jf "gen_model" .null) gm then some true
      else pyAnyJudgmentList em gm rest
    | _ => none

/-- Iterating a judgments value of arbitrary shape: arrays are scanned,
the empty string and empty dict iterate zero times, every other shape
raises by the time an element's .get is evaluated. -/
def pyAnyJudgment (judgments : Json) (em gm : String) : Option Bool :=
  match judgments with
  | .arr js => pyAnyJudgmentList em gm js
  | .str "" => some false
  | .obj [] => some false
  | _ => none

/-- The per-entry loop of _validate_questions_completion: a falsy question
fails the dimension, a truthy non-string question raises at .strip(), a
whitespace-only question fails, otherwise continue. -/
def questionsEntriesLoop : List Json → Option Bool
  | [] => some true
  | e :: rest =>
    match pyGet e "question" (.str "") with
    | none => none
    | some q =>
      if !pyTruthy q then some false
      else
        match q with
        | .str s => if s.trim == "" then some false else questionsEntriesLoop rest
        | _ => none

/-- Iterating an entries value inside the two validators: an array is
walked element by element; any other truthy shape raises by the time an
element's .get is evaluated.  (Falsy shapes are rejected before this.) -/
def entriesLoopOf (f : List Json → Option Bool) (entries : Json) : Option Bool :=
  match entries with
  | .arr es => f es
  | _ => none

/-- The dimension loop of _validate_questions_completion. -/
def questionsDimsLoop (evaluation : Json) : List String → Option Bool
  | [] => some true
  | d :: rest =>
    match pyGet evaluation d (.arr []) with
    | none => none
    | some entries =>
      if !pyTruthy entries then some false
      else
        match entriesLoopOf questionsEntriesLoop entries with
        | some true => questionsDimsLoop evaluation rest
        | r => r

/-- ItemStateManager._validate_questions_completion. -/
def validateQuestionsCompletion (data : Json) (ds : List String) : Option Bool :=
  match pyGet data "evaluation" (.obj []) with
  | none => none
  | some evaluation => questionsDimsLoop evaluation ds

/-- The per-entry loop of _validate_evaluation_completion. -/
def evalEntriesLoop (em gm : String) : List Json → Option Bool
  | [] => some true
  | e :: rest =>
    match pyGet e "judgments" (.arr []) with
    | none => none
    | some judgments =>
      match pyAnyJudgment judgments em gm with
      | some true => evalEntriesLoop em gm rest
      | some false => some false
      | none => none

/-- The dimension loop of _validate_evaluation_completion. -/
def evalDimsLoop (evaluation : Json) (em gm : String) : List String → Option Bool
  | [] => some true
  | d :: rest =>
    match pyGet evaluation d (.arr []) with
    | none => none
    | some entries =>
      if !pyTruthy entries then some false
      else
        match entriesLoopOf (evalEntriesLoop em gm) entries with
        | some true => evalDimsLoop evaluation em gm rest
        | r => r

/-- ItemStateManager._validate_evaluation_completion: split the method as
eval_model, gen_model on the first '_' (split with maxsplit=1), require a
truthy evaluation field, then check every configured dimension. -/
def validateEvaluationCompletion (data : Json) (m : String) (ds : List String) : Option Bool :=
  if !m.contains '_' then some false
  else
    let em := (m.splitOn "_").headD ""
    let gm := String.intercalate "_" ((m.splitOn "_").drop 1)
    match pyGet data "evaluation" (.obj []) with
    | none => none
    | some evaluation =>
      if !pyTruthy evaluation then some false
      else evalDimsLoop evaluation em gm ds

/-- The stage dispatch inside the try block of
ItemStateManager.is_stage_completed; `none` marks a branch where Python
raises (and the enclosing except returns False). -/
def stageBody (fs : FS) (stage : String) (method : Option String)
    (dims : Option (List String)) (data : Json) : Option Bool :=
  if stage == "draft" then draftBody data
  else if stage == "generate" then generateBody fs method data
  else if stage == "generate_questions" then
    match dims with
    | none => some false
    | some ds => if ds.isEmpty then some false else validateQuestionsCompletion data ds
  else if stage == "evaluate" then
    match method, dims with
    | none, _ => some false
    | some _, none => some false
    | some m, some ds =>
      if m == "" then some false
      else if ds.isEmpty then some false
      else validateEvaluationCompletion data m ds
  else some false

/-- ItemStateManager.is_stage_completed: absent record file means False,
unparseable JSON means False (json.load raises into the except), and any
exception inside the stage dispatch also yields False. -/
def ItemStateManager.is_stage_completed (fs : FS) (output_dir item_id stage : String)
    (method : Option String) (dims : Option (List String)) : Bool :=
  if fs.present (itemJsonPath output_dir item_id) then
    match fs.content (itemJsonPath output_dir item_id) with
    | none => false
    | some data => (stageBody fs stage method dims data).getD false
  else false

/-- The generate-and-record tail of GenWorkflow.run: invoke the external
generation capability once, resolve the deterministic image path, record it
in the generation map.  The returned Bool reports that the capability was
invoked.  A non-string id makes the pathlib join raise.  (The image bytes
and their write to disk are external effects outside the value model.) -/
def genGeneratePath (model output_dir : String) (item : VISItem) :
    Except String (VISItem × Bool) :=
  match item.id with
  | .str idStr =>
    .ok (item.update_generation model (PathResolver.resolve_image_path idStr model output_dir),
         true)
  | _ => .error "TypeError: unsupported operand type for path join"

/-- GenWorkflow.run: under resume, skip when the generation map has a
non-None entry whose path exists (Path() on a non-None non-string entry
raises); otherwise generate, record the resolved path and return. -/
def GenWorkflow.run (fs : FS) (model output_dir : String) (resume : Bool) (item : VISItem) :
    Except String (VISItem × Bool) :=
  if resume && item.check_generation_exists model then
    match List.lookup model item.generation with
    | some (.str p) =>
      if pathlibExists fs p then .ok (item, false)
      else genGeneratePath model output_dir item
    | _ => .error "TypeError: argument should be a str or an os.PathLike object"
  else genGeneratePath model output_dir item

/-- EvalEngine.check_fully_evaluated delegates to
VISItem.check_evaluation_complete. -/
def EvalEngine.check_fully_evaluated (item : VISItem) (gen_model eval_model : String) : Bool :=
  item.check_evaluation_complete gen_model eval_model

/-- The error message of EvalWorkflow._evaluate_all for an item with no
evaluation entries (the real message also interpolates the item id). -/
def evalEmptyMessage : String :=
  "No questions found for item. Questions should be generated before evaluation."

/-- EvalWorkflow._evaluate_all: hard failure on an empty evaluation list;
otherwise walk the entries in order, skipping (under resume) entries that
already hold a matching judgment and appending one judgment from the
external capability to each remaining entry.  The Nat counts capability
invocations; the per-question persistence is a filesystem effect outside
the value model.  The external judgment capability is modelled as a total
function (its result-or-failure behaviour is out of scope). -/
def EvalWorkflow.evaluateAll (judge : EvalEntry → String → String → String → Judgment)
    (resume : Bool) (eval_model gen_model image_path : String) (item : VISItem) :
    Except String (VISItem × Nat) :=
  if item.evaluation.isEmpty then .error evalEmptyMessage
  else
    let step : EvalEntry → EvalEntry × Nat := fun e =>
      if resume && e.has_judgment gen_model eval_model then (e, 0)
      else ({ e with judgments := e.judgments ++ [judge e gen_model eval_model image_path] }, 1)
    .ok ({ item with evaluation := (item.evaluation.map step).map Prod.fst },
         ((item.evaluation.map step).map Prod.snd).sum)

/-- EvalWorkflow.run: resolve the image path when none is supplied (a
non-string id makes the pathlib join raise), skip everything when resume
finds the item fully evaluated, else run _evaluate_all. -/
def EvalWorkflow.run (judge : EvalEntry → String → String → String → Judgment)
    (eval_model output_dir : String) (resume : Bool) (item : VISItem)
    (gen_model_name : String) (image_path : Option String) :
    Except String (VISItem × Nat) :=
  match (match image_path with
         | some p => Except.ok p
         | none =>
           match item.id with
           | .str s => Except.ok (PathResolver.resolve_image_path s gen_model_name output_dir)
           | _ => Except.error "TypeError: unsupported operand type for path join") with
  | .error e => .error e
  | .ok ip =>
    if resume && EvalEngine.check_fully_evaluated item gen_model_name eval_model then
      .ok (item, 0)
    else EvalWorkflow.evaluateAll judge resume eval_model gen_model_name ip item

/-- Modelled from the claim wording of C3: the generation map contains the
model key and the stored path refers to a file that exists on the
filesystem. -/
def specGenerationComplete (fs : FS) (gen : List (String × Json)) (m : String) : Prop :=
  ∃ p, List.lookup m gen = some (Json.str p) ∧ fs.present p = true

/-- Modelled from the claim wording of C5: replace every '-' and '.' with
'_' and, for names containing '/', keep only the substring after the last
'/'. -/
def specNormalizeLastSlash (model_name : String) : String :=
  let r := replaceDashDot model_name
  if r.data.contains '/' then ⟨(splitChar '/' r.data).getLastD []⟩ else r

/-- Modelled from the amended wording of C5: replace every '-' and '.' with
'_' and, for names containing '/', keep only the second '/'-separated
segment (the part after the first '/', up to the next '/'). -/
def specNormalizeSecondSegment (model_name : String) : String :=
  let r := replaceDashDot model_name
  if r.data.contains '/' then ⟨((splitChar '/' r.data).drop 1).headD []⟩ else r

/-- Concrete filesystem fixture: a seed file and a diverging saved output
record for item "7". -/
def fsResume : FS :=
  ⟨fun p => p == "seed.json" || p == "out/7/7.json",
   fun p =>
     if p == "seed.json" then some (.obj [("id", .str "7")])
     else if p == "out/7/7.json" then
       some (.obj [("id", .str "7"), ("t2i_prompt", .str "changed")])
     else none⟩

/-- The record parsed from the seed fixture. -/
def seedItem7 : VISItem := { id := .str "7" }

/-- The record parsed from the saved output fixture. -/
def outItem7 : VISItem := { id := .str "7", t2i_prompt := .str "changed" }

/-- Concrete filesystem fixture for the generate-stage completion check: a
record for item "1" whose generation map binds the empty model name to an
image file that exists. -/
def fsStageEmptyModel : FS :=
  ⟨fun p => p == "out/1/1.json" || p == "img.png",
   fun p =>
     if p == "out/1/1.json" then
       some (.obj [("id", .str "1"), ("generation", .obj [("", .str "img.png")])])
     else none⟩

/-- Concrete filesystem fixture for the generate-stage completion check: a
record for item "7" whose generation map binds model "m1" to an existing
image file. -/
def fsStageOk : FS :=
  ⟨fun p => p == "out/7/7.json" || p == "img.png",
   fun p =>
     if p == "out/7/7.json" then
       some (.obj [("id", .str "7"), ("generation", .obj [("m1", .str "img.png")])])
     else none⟩

theorem jsonEqStr_iff (j : Json) (s : String) : jsonEqStr j s = true ↔ j = .str s := by
  cases j <;> simp [jsonEqStr]

/-- C2: the evaluate-completion check is true exactly when the evaluation
sequence is non-empty and every entry holds a judgment whose gen_model and
eval_model both equal the requested names as strings; with zero entries it
is false for every model pair. -/
theorem evaluation_complete_iff (item : VISItem) (gm em : String) :
    item.check_evaluation_complete gm em = true ↔
      (item.evaluation ≠ [] ∧ ∀ e ∈ item.evaluation,
        ∃ j ∈ e.judgments, j.gen_model = Json.str gm ∧ j.eval_model = Json.str em) := by
  unfold VISItem.check_evaluation_complete
  cases h : item.evaluation with
  | nil => simp [h]
  | cons a l =>
    simp [h, EvalEntry.has_judgment, List.all_eq_true, List.any_eq_true, jsonEqStr_iff,
      and_assoc]

theorem judgment_roundtrip (j : Judgment) : judgmentFromJson (Judgment.toJson j) = some j := rfl

theorem judgments_roundtrip (js : List Judgment) :
    js.filterMap (judgmentFromJson ∘ Judgment.toJson) = js := by
  induction js with
  | nil => rfl
  | cons j rest ih => simp [Function.comp, judgment_roundtrip, ih]

theorem entry_roundtrip (e : EvalEntry) : EvalEntry.fromDict e.toSaveFields = e := by
  simp [EvalEntry.fromDict, EvalEntry.toSaveFields, dictGet, List.lookup, judgments_roundtrip]

theorem evaluation_roundtrip (es : List EvalEntry) :
    exceptMapM parseEvalElement (es.map EvalEntry.toSaveJson) = .ok es := by
  induction es with
  | nil => rfl
  | cons e rest ih =>
    simp [exceptMapM, parseEvalElement, EvalEntry.toSaveJson, entry_roundtrip, ih]

/-- C4: saving any record and re-parsing the saved JSON yields a record
equal to the original in every field: id, the three optional descriptive
fields, the full generation map, and the evaluation entries with their
judgments in the original order. -/
theorem save_load_roundtrip (item : VISItem) :
    VISItem.fromDict (VISItem.toSaveJson item) = .ok item := by
  simp [VISItem.fromDict, VISItem.toSaveJson, List.lookup, parseGeneration, parseEvaluation,
    evaluation_roundtrip]

/-- C6: parsing a JSON object without an id field fails; parsing an object
holding only an id succeeds, with the generation map empty, the evaluation
sequence empty and the optional descriptive fields left unset (None). -/
theorem from_dict_id_spec (fields : List (String × Json)) (v : Json) :
    (List.lookup "id" fields = none →
      VISItem.fromDict (.obj fields) = .error "ParseError: missing required field id")
    ∧ VISItem.fromDict (.obj [("id", v)]) =
        .ok { id := v, reference_image_url := .null, t2i_prompt := .null,
              chart_type := .null, generation := [], evaluation := [] } := by
  constructor
  · intro h
    simp [VISItem.fromDict, h]
  · rfl

theorem from_dict_id_spec_witness :
    VISItem.fromDict (.obj [("t2i_prompt", .str "draw")]) =
        .error "ParseError: missing required field id"
    ∧ VISItem.fromDict (.obj [("id", .str "7")]) =
        .ok { id := .str "7", reference_image_url := .null, t2i_prompt := .null,
              chart_type := .null, generation := [], evaluation := [] } :=
  ⟨(from_dict_id_spec [("t2i_prompt", .str "draw")] (.str "7")).1 rfl,
   (from_dict_id_spec [("t2i_prompt", .str "draw")] (.str "7")).2⟩

/-- C7: a dict-shaped judgment inside a parsed evaluation entry is always
decoded (never a failure): every one of its four sub-fields falls back to
the empty string when absent, and the decoded Judgment is an element of the
entry's judgments list. -/
theorem judgment_parse_defensive (ef : List (String × Json)) (js : List Json)
    (jf : List (String × Json)) (hlk : List.lookup "judgments" ef = some (.arr js))
    (hmem : Json.obj jf ∈ js) :
    ({ eval_model := dictGet jf "eval_model" (.str ""),
       gen_model := dictGet jf "gen_model" (.str ""),
       analysis := dictGet jf "analysis" (.str ""),
       answer := dictGet jf "answer" (.str "") } : Judgment)
        ∈ (EvalEntry.fromDict ef).judgments
    ∧ ∀ k, List.lookup k jf = none → dictGet jf k (.str "") = .str "" := by
  constructor
  · simp only [EvalEntry.fromDict, hlk]
    exact List.mem_filterMap.mpr ⟨.obj jf, hmem, rfl⟩
  · intro k hk
    simp [dictGet, hk]

theorem judgment_parse_defensive_witness :
    ({ eval_model := .str "", gen_model := .str "m1", analysis := .str "",
       answer := .str "" } : Judgment)
      ∈ (EvalEntry.fromDict
          [("question", .str "q"),
           ("judgments", .arr [.obj [("gen_model", .str "m1")]])]).judgments :=
  (judgment_parse_defensive
      [("question", .str "q"), ("judgments", .arr [.obj [("gen_model", .str "m1")]])]
      [.obj [("gen_model", .str "m1")]]
      [("gen_model", .str "m1")] rfl (by simp)).1

/-- C1: under resume, an existing output record at
`{output_dir}/{id}/{id}.json` is returned wholesale (the parse of exactly
that file, never a merge with the seed); with the output file absent, or
with resume off, the seed record is returned unchanged. -/
theorem load_item_resume_spec (fs : FS) (root src : String) (seed : VISItem) (X : String)
    (outJson : Json) (outItem : VISItem)
    (hseed : VISItem.from_dict_file fs src = .ok seed)
    (hid : seed.id = .str X)
    (hcontent : fs.content (itemJsonPath root X) = some outJson)
    (hout : VISItem.fromDict outJson = .ok outItem) :
    (fs.present (itemJsonPath root X) = true →
      ItemStateManager.load_item fs root src true = .ok outItem)
    ∧ (fs.present (itemJsonPath root X) = false →
      ItemStateManager.load_item fs root src true = .ok seed)
    ∧ ItemStateManager.load_item fs root src false = .ok seed := by
  refine ⟨?_, ?_, ?_⟩
  · intro hp
    simp only [ItemStateManager.load_item, Bool.not_true]
    rw [hseed]
    simp only [hid, hp]
    simp [VISItem.from_dict_file, readJsonFile, hp, hcontent, hout]
  · intro hp
    simp only [ItemStateManager.load_item, Bool.not_true]
    rw [hseed]
    simp [hid, hp]
  · simp only [ItemStateManager.load_item, Bool.not_false]
    simp [hseed]

theorem load_item_resume_spec_witness :
    ItemStateManager.load_item fsResume "out" "seed.json" true = .ok outItem7
    ∧ ItemStateManager.load_item fsResume "out" "seed.json" false = .ok seedItem7 :=
  ⟨(load_item_resume_spec fsResume "out" "seed.json" seedItem7 "7"
      (.obj [("id", .str "7"), ("t2i_prompt", .str "changed")]) outItem7
      rfl rfl rfl rfl).1 rfl,
   (load_item_resume_spec fsResume "out" "seed.json" seedItem7 "7"
      (.obj [("id", .str "7"), ("t2i_prompt", .str "changed")]) outItem7
      rfl rfl rfl rfl).2.2⟩

/-- C3 counterexample: for the empty model name, a record whose generation
map binds that name to an existing image file is still reported NOT
complete (the check short-circuits on a falsy method), refuting the
claimed equivalence. -/
theorem generate_completed_counterexample :
    ¬ (ItemStateManager.is_stage_completed fsStageEmptyModel "out" "1" "generate"
          (some "") none = true
        ↔ specGenerationComplete fsStageEmptyModel [("", Json.str "img.png")] "") := by
  intro h
  have h2 := h.mpr ⟨"img.png", rfl, rfl⟩
  exact absurd h2 (by decide)

/-- C3 amended: for a parsed record whose generation field is an object,
and a NON-EMPTY model name m, the generate-stage completion check is true
iff the generation map binds m to a non-empty path string whose file exists
on the filesystem at the time of the check (so deleting the file flips the
check back to false without touching the record). -/
theorem generate_completed_amended (fs : FS) (root iid m : String)
    (dims : Option (List String)) (dfields gen : List (String × Json))
    (hp : fs.present (itemJsonPath root iid) = true)
    (hc : fs.content (itemJsonPath root iid) = some (.obj dfields))
    (hg : List.lookup "generation" dfields = some (.obj gen))
    (hm : m ≠ "") :
    ItemStateManager.is_stage_completed fs root iid "generate" (some m) dims = true ↔
      ∃ p, List.lookup m gen = some (Json.str p) ∧ p ≠ "" ∧ pathlibExists fs p = true := by
  have hsb : stageBody fs "generate" (some m) dims (.obj dfields)
      = generateBody fs (some m) (.obj dfields) := rfl
  have hm' : (m == "") = false := by simp [hm]
  simp only [ItemStateManager.is_stage_completed, hp, hc, if_true, hsb, generateBody, hm',
    Bool.false_eq_true, if_false, pyGet, dictGet, hg, Option.getD_some]
  cases hv : List.lookup m gen with
  | none => simp [hv]
  | some v =>
    cases v with
    | null => simp [hv, pyTruthy]
    | bool b => cases b <;> simp [hv, pyTruthy]
    | num n => by_cases hn : n = 0 <;> simp [hv, pyTruthy, hn]
    | str p => by_cases hp0 : p = "" <;> simp [hv, pyTruthy, hp0]
    | arr xs => cases xs <;> simp [hv, pyTruthy]
    | obj fo => cases fo <;> simp [hv, pyTruthy]

theorem generate_completed_amended_witness :
    ItemStateManager.is_stage_completed fsStageOk "out" "7" "generate" (some "m1") none = true ↔
      ∃ p, List.lookup "m1" [("m1", Json.str "img.png")] = some (Json.str p)
        ∧ p ≠ "" ∧ pathlibExists fsStageOk p = true :=
  generate_completed_amended fsStageOk "out" "7" "m1" none
    [("id", .str "7"), ("generation", .obj [("m1", .str "img.png")])]
    [("m1", .str "img.png")] rfl rfl rfl (by decide)

/-- C5 counterexample: for the model name "a/b/c" the code keeps the
segment after the FIRST slash ("b"), so the resolved image path differs
from the claimed after-the-last-slash formula ("c"). -/
theorem image_path_claim_counterexample :
    PathResolver.resolve_image_path "42" "a/b/c" "out"
      ≠ "out" ++ "/" ++ "42" ++ "/" ++ "42" ++ "_" ++ specNormalizeLastSlash "a/b/c" ++ ".png" := by
  decide

/-- C5 amended: the generation driver records the image at
`{outputRoot}/{id}/{id}_{normalizedModel}.png`, where the normalized model
name replaces every '-' and '.' with '_' and, for names containing '/',
keeps only the second '/'-separated segment (the part after the first '/',
up to the next '/'); no lower-casing.  "gemini-2.0" with id "42" yields
filename "42_gemini_2_0.png". -/
theorem image_path_amended (fs : FS) (idStr m root : String) (item : VISItem)
    (hid : item.id = Json.str idStr) :
    GenWorkflow.run fs m root false item =
      .ok (item.update_generation m (PathResolver.resolve_image_path idStr m root), true)
    ∧ PathResolver.resolve_image_path idStr m root =
        root ++ "/" ++ idStr ++ "/" ++ idStr ++ "_"
          ++ ModelNameResolver.normalize_for_filename m ++ ".png"
    ∧ ModelNameResolver.normalize_for_filename m = specNormalizeSecondSegment m
    ∧ ModelNameResolver.normalize_for_filename "gemini-2.0" = "gemini_2_0" := by
  refine ⟨?_, ?_, rfl, by decide⟩
  · simp [GenWorkflow.run, genGeneratePath, hid]
  · simp [PathResolver.resolve_image_path, ModelNameResolver.build_image_filename,
      String.append_assoc]

theorem image_path_amended_witness :
    GenWorkflow.run fsResume "gemini-2.0" "out" false { id := Json.str "42" } =
      .ok ({ id := Json.str "42" : VISItem}.update_generation "gemini-2.0"
             (PathResolver.resolve_image_path "42" "gemini-2.0" "out"), true)
    ∧ PathResolver.resolve_image_path "42" "gemini-2.0" "out" = "out/42/42_gemini_2_0.png" := by
  have h := image_path_amended fsResume "42" "gemini-2.0" "out" { id := Json.str "42" } rfl
  exact ⟨h.1, by rw [h.2.1]; rfl⟩

/-- C8: running the evaluation driver on an item whose evaluation sequence
is empty is a hard failure for every resume mode, every model pair and
every judgment capability: it returns the dedicated error before any
judgment call and without producing any mutated record. -/
theorem eval_run_empty_fails (judge : EvalEntry → String → String → String → Judgment)
    (eval_model output_dir : String) (resume : Bool) (item : VISItem)
    (gen_model : String) (image_path : Option String) (X : String)
    (hid : item.id = Json.str X) (hemp : item.evaluation = []) :
    EvalWorkflow.run judge eval_model output_dir resume item gen_model image_path =
      .error evalEmptyMessage := by
  have hcheck : item.check_evaluation_complete gen_model eval_model = false := by
    simp [VISItem.check_evaluation_complete, hemp]
  cases image_path with
  | some p =>
    simp [EvalWorkflow.run, EvalEngine.check_fully_evaluated, hcheck,
      EvalWorkflow.evaluateAll, hemp]
  | none =>
    simp [EvalWorkflow.run, hid, EvalEngine.check_fully_evaluated, hcheck,
      EvalWorkflow.evaluateAll, hemp]

theorem eval_run_empty_fails_witness :
    EvalWorkflow.run (fun _ _ _ _ => {}) "m2" "out" true { id := Json.str "42" } "m1" none =
      .error evalEmptyMessage :=
  eval_run_empty_fails (fun _ _ _ _ => {}) "m2" "out" true { id := Json.str "42" }
    "m1" none "42" rfl rfl

theorem keys_dictUpdate (g : List (String × Json)) (m : String) (v : Json) (k : String)
    (hk : k ∈ g.map Prod.fst) : k ∈ (dictUpdate g m v).map Prod.fst := by
  induction g with
  | nil => simp at hk
  | cons kv rest ih =>
    obtain ⟨k', v'⟩ := kv
    by_cases h : k' == m
    · simpa [dictUpdate, h] using hk
    · rcases List.mem_cons.mp hk with h1 | h1
      · simp [dictUpdate, h, h1]
      · simp [dictUpdate, h, ih h1]

theorem forall2_self_map {α : Type} (R : α → α → Prop) (f : α → α) (l : List α)
    (h : ∀ a ∈ l, R a (f a)) : List.Forall₂ R l (l.map f) := by
  induction l with
  | nil => simp
  | cons a rest ih =>
    exact List.Forall₂.cons (h a (by simp)) (ih fun b hb => h b (by simp [hb]))

theorem genGeneratePath_keys (model root : String) (item out : VISItem) (flag : Bool)
    (h : genGeneratePath model root item = .ok (out, flag)) :
    ∀ k ∈ item.generation.map Prod.fst, k ∈ out.generation.map Prod.fst := by
  intro k hk
  unfold genGeneratePath at h
  cases hid : item.id <;> rw [hid] at h <;> simp at h
  case str s =>
    obtain ⟨h1, h2⟩ := h
    subst h1
    simp only [VISItem.update_generation]
    exact keys_dictUpdate item.generation model _ k hk

/-- C9: the in-memory mutations only grow the record: update_generation
keeps every existing generation key (overwriting, never removing);
add_judgment appends exactly one judgment at the end; a successful run of
the evaluation driver maps each entry to itself with zero or more judgments
appended (order and prior judgments untouched); and a successful run of the
generation driver keeps every existing generation key. -/
theorem mutations_grow_only :
    (∀ (item : VISItem) (m p : String), ∀ k ∈ item.generation.map Prod.fst,
        k ∈ (item.update_generation m p).generation.map Prod.fst)
    ∧ (∀ (e : EvalEntry) (gm em an ans : String),
        (e.add_judgment gm em an ans).judgments =
          e.judgments ++ [{ eval_model := .str em, gen_model := .str gm,
                            analysis := .str an, answer := .str ans }])
    ∧ (∀ (judge : EvalEntry → String → String → String → Judgment) (resume : Bool)
        (em gm ip : String) (item out : VISItem) (n : Nat),
        EvalWorkflow.evaluateAll judge resume em gm ip item = .ok (out, n) →
        List.Forall₂ (fun e e2 => ∃ js, e2 = { e with judgments := e.judgments ++ js })
          item.evaluation out.evaluation)
    ∧ (∀ (fs : FS) (model root : String) (resume : Bool) (item out : VISItem) (flag : Bool),
        GenWorkflow.run fs model root resume item = .ok (out, flag) →
        ∀ k ∈ item.generation.map Prod.fst, k ∈ out.generation.map Prod.fst) := by
  refine ⟨?_, ?_, ?_, ?_⟩
  · intro item m p k hk
    exact keys_dictUpdate item.generation m (.str p) k hk
  · intro e gm em an ans
    rfl
  · intro judge resume em gm ip item out n h
    unfold EvalWorkflow.evaluateAll at h
    by_cases hemp : item.evaluation.isEmpty
    · simp [hemp] at h
    · simp only [hemp, Bool.false_eq_true, if_false, Except.ok.injEq, Prod.mk.injEq] at h
      obtain ⟨h1, h2⟩ := h
      subst h1
      simp only [List.map_map]
      refine forall2_self_map _ _ _ ?_
      intro a ha
      by_cases hj : (resume && a.has_judgment gm em) = true
      · exact ⟨[], by simp [Function.comp, hj]⟩
      · exact ⟨[judge a gm em ip], by simp [Function.comp, hj]⟩
  · intro fs model root resume item out flag h k hk
    unfold GenWorkflow.run at h
    by_cases hr : (resume && item.check_generation_exists model) = true
    · rw [if_pos hr] at h
      cases hlk : List.lookup model item.generation with
      | none => rw [hlk] at h; simp at h
      | some v =>
        rw [hlk] at h
        cases v <;> simp at h
        rename_i p
        by_cases hex : pathlibExists fs p = true
        · rw [if_pos hex] at h
          simp at h
          obtain ⟨h1, h2⟩ := h
          subst h1
          exact hk
        · rw [if_neg hex] at h
          exact genGeneratePath_keys model root item out flag h k hk
    · rw [if_neg hr] at h
      exact genGeneratePath_keys model root item out flag h k hk

theorem mutations_grow_only_witness :
    "m0" ∈ ((({ generation := [("m0", Json.str "p0")] } : VISItem).update_generation
        "m1" "p1").generation.map Prod.fst) :=
  mutations_grow_only.1 { generation := [("m0", Json.str "p0")] } "m1" "p1" "m0" (by simp)

/-- C10: the persisted-record completion check is a total Boolean function
that swallows every failure: an absent record file yields false, a present
but unreadable or malformed record yields false, and any error raised
while inspecting a parsed record (a `none` stage body, the model of an
exception reaching the except handler) also yields false. -/
theorem stage_check_total (fs : FS) (root iid stage : String) (method : Option String)
    (dims : Option (List String)) :
    (fs.present (itemJsonPath root iid) = false →
      ItemStateManager.is_stage_completed fs root iid stage method dims = false)
    ∧ (fs.content (itemJsonPath root iid) = none →
      ItemStateManager.is_stage_completed fs root iid stage method dims = false)
    ∧ (∀ data, fs.content (itemJsonPath root iid) = some data →
        stageBody fs stage method dims data = none →
        ItemStateManager.is_stage_completed fs root iid stage method dims = false) := by
  refine ⟨?_, ?_, ?_⟩
  · intro hp
    simp [ItemStateManager.is_stage_completed, hp]
  · intro hc
    by_cases hp : fs.present (itemJsonPath root iid) = true
    · simp [ItemStateManager.is_stage_completed, hp, hc]
    · simp [ItemStateManager.is_stage_completed, hp]
  · intro data hc hbody
    by_cases hp : fs.present (itemJsonPath root iid) = true
    · simp [ItemStateManager.is_stage_completed, hp, hc, hbody]
    · simp [ItemStateManager.is_stage_completed, hp]

theorem stage_check_total_witness :
    ItemStateManager.is_stage_completed
        ⟨fun p => p == "out/3/3.json" || p == "out/4/4.json",
         fun p => if p == "out/4/4.json" then some (.num 5) else none⟩
        "out" "9" "generate" (some "m1") none = false
    ∧ ItemStateManager.is_stage_completed
        ⟨fun p => p == "out/3/3.json" || p == "out/4/4.json",
         fun p => if p == "out/4/4.json" then some (.num 5) else none⟩
        "out" "3" "generate" (some "m1") none = false
    ∧ ItemStateManager.is_stage_completed
        ⟨fun p => p == "out/3/3.json" || p == "out/4/4.json",
         fun p => if p == "out/4/4.json" then some (.num 5) else none⟩
        "out" "4" "generate" (some "m1") none = false :=
  ⟨(stage_check_total _ "out" "9" "generate" (some "m1") none).1 rfl,
   (stage_check_total _ "out" "3" "generate" (some "m1") none).2.1 rfl,
   (stage_check_total _ "out" "4" "generate" (some "m1") none).2.2 (.num 5) rfl rfl⟩
